import Mathlib

/-!
Verification of the GPUQT `Model` component (src/src/model.h).

The repository ships only the class declaration `model.h`; the bodies of the
constructor, of the private builders (`initialize_parameters`,
`initialize_energy`, `initialize_time`, `initialize_neighbor`,
`initialize_positions`, `initialize_potential`, `initialize_hopping`,
`get_random_phase`) and of `initialize_state` are not among the source files.
Where a definition embeds such a missing body it is modelled from the spec and
its doc comment says so.  The `Model` structure itself, with its default field
values, is taken from the in-class initializers of `model.h`.

Numeric conventions of the shallow embedding: the C type `real`
(float/double) is embedded as `ℚ` for all stored arrays and scalars, so that
every stored quantity is computable and decidable; the phases produced by the
random generator are stored as fractions `u ∈ [0,1)` of the full circle, and
the real/imaginary components `cos(2πu)`, `sin(2πu)` are expressed over `ℝ`
by the derived maps `state_real` and `state_imag`.  C `int` is embedded as
`ℤ`.  Flattened arrays are embedded as Lean lists.
-/

/-- The error taxonomy of the spec (section 7): configuration, adjacency,
alignment and allocation failures, all reported as construction failure. -/
inductive ModelError where
  | configError
  | connectivityError
  | dataAlignmentError
  | allocationError
deriving DecidableEq

/-- The `Model` class of `src/src/model.h`.  Scalar fields and their default
values mirror the in-class initializers (`calculate_vac = false`,
`calculate_msd = false`, `number_of_random_vectors = 1`, `number_of_atoms = 0`,
`max_neighbor = 0`, `number_of_pairs = 0`, `number_of_energy_points = 0`,
`number_of_moments = 1000`, `number_of_steps_correlation = 0`,
`energy_max = 10`, `requires_time = false`).  The raw-pointer arrays of the
header are embedded as lists defaulting to the empty (unallocated) list.  The
`std::mt19937 generator` together with `phase_distribution` is modelled, per
the spec, as a deterministic stream addressed by a seed and a monotonically
advancing sequence position; `random_state_phase` holds the fractions of the
full circle drawn for the current realization (the buffers
`random_state_real` / `random_state_imag` of the header are the cosine/sine
images of these fractions, recovered by `Model.random_state_real` and
`Model.random_state_imag` below). -/
structure Model where
  calculate_vac : Bool := false
  calculate_msd : Bool := false
  number_of_random_vectors : Int := 1
  number_of_atoms : Int := 0
  max_neighbor : Int := 0
  number_of_pairs : Int := 0
  number_of_energy_points : Int := 0
  number_of_moments : Int := 1000
  number_of_steps_correlation : Int := 0
  input_dir : String := ""
  energy_max : ℚ := 10
  energy : List ℚ := []
  time_step : List ℚ := []
  neighbor_number : List Int := []
  neighbor_list : List Int := []
  xx : List ℚ := []
  potential : List ℚ := []
  hopping_real : List ℚ := []
  hopping_imag : List ℚ := []
  volume : ℚ := 0
  random_state_phase : List ℚ := []
  x : List ℚ := []
  box : ℚ := 0
  requires_time : Bool := false
  generator_seed : Nat := 0
  generator_position : Nat := 0
deriving DecidableEq

/-- Modelled from the spec: the raw scalar and array values that the external
input collaborator (the parser of `input_dir`, out of scope per section 1)
hands to the missing constructor body.  Adjacency and the bond-aligned raw
electronic data are per-atom rows; `potential_raw` and `x_raw` are per-atom
values; `seed` seeds the deterministic generator. -/
structure RawInput where
  calculate_vac : Bool
  calculate_msd : Bool
  number_of_random_vectors : Int
  number_of_atoms : Int
  max_neighbor : Int
  number_of_energy_points : Int
  number_of_moments : Int
  number_of_steps_correlation : Int
  energy_max : ℚ
  seed : Nat
  adjacency : List (List Int)
  hopping_real_raw : List (List ℚ)
  hopping_imag_raw : List (List ℚ)
  xx_raw : List (List ℚ)
  potential_raw : List ℚ
  x_raw : List ℚ
  box_raw : ℚ
deriving DecidableEq

/-- Modelled from the spec (section 4.1): the missing
`Model::initialize_parameters` body validates the scalar configuration:
`number_of_atoms > 0`, `max_neighbor >= 0`, `number_of_random_vectors >= 1`,
`number_of_moments >= 1`, `energy_max > 0`, and consistency of the VAC/MSD
flags with the correlation step count (section 4.5: requesting VAC/MSD with
`number_of_steps_correlation == 0` is a configuration error). -/
def parameters_ok (inp : RawInput) : Prop :=
  0 < inp.number_of_atoms ∧ 0 ≤ inp.max_neighbor ∧
  1 ≤ inp.number_of_random_vectors ∧ 1 ≤ inp.number_of_moments ∧
  0 < inp.energy_max ∧ 0 ≤ inp.number_of_energy_points ∧
  0 ≤ inp.number_of_steps_correlation ∧
  ((inp.calculate_vac = true ∨ inp.calculate_msd = true) →
    inp.number_of_steps_correlation ≠ 0)

instance (inp : RawInput) : Decidable (parameters_ok inp) := by
  unfold parameters_ok; infer_instance

/-- Modelled from the spec (section 4.2): the adjacency rows are well formed
when there is one row per atom, no row exceeds `max_neighbor`, and every
listed neighbor index lies in `[0, number_of_atoms)`. -/
def adjacency_ok (inp : RawInput) : Prop :=
  inp.adjacency.length = inp.number_of_atoms.toNat ∧
  ∀ row ∈ inp.adjacency,
    (row.length : Int) ≤ inp.max_neighbor ∧
    ∀ j ∈ row, 0 ≤ j ∧ j < inp.number_of_atoms

instance (inp : RawInput) : Decidable (adjacency_ok inp) := by
  unfold adjacency_ok; infer_instance

/-- Rows of bond-aligned raw data match the connectivity table when there is
one row per adjacency row and each row has exactly the length of the
corresponding adjacency row. -/
def rows_match (adjacency : List (List Int)) (vals : List (List ℚ)) : Prop :=
  vals.length = adjacency.length ∧
  ∀ p ∈ adjacency.zip vals, p.1.length = p.2.length

instance (a : List (List Int)) (v : List (List ℚ)) :
    Decidable (rows_match a v) := by
  unfold rows_match; infer_instance

/-- Modelled from the spec (section 4.3): the missing electronic-structure
builders check that the raw hopping, imaginary-hopping and bond-geometry rows
align one-to-one with the validated connectivity table and that the per-atom
arrays have one entry per atom; any mismatch is a `DataAlignmentError`. -/
def alignment_ok (inp : RawInput) : Prop :=
  rows_match inp.adjacency inp.hopping_real_raw ∧
  rows_match inp.adjacency inp.hopping_imag_raw ∧
  rows_match inp.adjacency inp.xx_raw ∧
  inp.potential_raw.length = inp.number_of_atoms.toNat ∧
  inp.x_raw.length = inp.number_of_atoms.toNat

instance (inp : RawInput) : Decidable (alignment_ok inp) := by
  unfold alignment_ok; infer_instance

/-- A row of bond-aligned data padded to the fixed stride `maxn` with the
defensive zero fill of the spec (section 4.2). -/
def pad_row (maxn : Nat) (z : α) (row : List α) : List α :=
  row ++ List.replicate (maxn - row.length) z

/-- Modelled from the spec (sections 3 and 4.2): the flattened fixed-stride
table, atom `i` occupying slots `[i*maxn, (i+1)*maxn)`, valid entries first
and zero padding after them. -/
def build_flat (maxn : Nat) (z : α) (rows : List (List α)) : List α :=
  (rows.map (pad_row maxn z)).flatten

/-- Modelled from the spec (section 4.4): the missing
`Model::initialize_energy` body produces a deterministic ascending grid of
`n` samples spanning `[-emax, emax]`; the spacing law is an implementation
choice (spec section 8), modelled here as the uniform grid with both
endpoints included for `n ≥ 2`. -/
def energy_grid (emax : ℚ) (n : Nat) : List ℚ :=
  if n ≤ 1 then List.replicate n 0
  else
    (List.range n).map
      (fun (k : Nat) => -emax + 2 * emax * (k : ℚ) / ((n : ℚ) - 1))

/-- Modelled from the spec (section 4.5): the missing `Model::initialize_time`
body produces `n` non-negative strictly increasing correlation-time samples
starting at zero; the spacing is modelled as the unit grid. -/
def time_grid (n : Nat) : List ℚ :=
  (List.range n).map (fun (k : Nat) => (k : ℚ))

/-- Modelled from the spec (sections 3 and 4.6): the `std::mt19937` generator
is a seeded deterministic pseudo-random source; its raw 32-bit output at a
given sequence position is modelled as a fixed computable mixing function of
the seed and the position, reduced modulo `2^32`. -/
def generator_output (seed position : Nat) : Nat :=
  (seed * 2862933555777941757 + position * 3202034522624059733 + 1442695040888963407) % 2 ^ 32

/-- Modelled from the spec (section 4.6): one draw of `phase_distribution`,
the uniform distribution over the full circle, expressed as the fraction
`u ∈ [0, 1)` of `2π`; the drawn angle is `2π·u`. -/
def phase_unit (seed position : Nat) : ℚ :=
  (generator_output seed position : ℚ) / 2 ^ 32

/-- The angle `θ = 2π·u` drawn by `get_random_phase` for a stored fraction
`u` of the full circle. -/
noncomputable def phase_theta (u : ℚ) : ℝ :=
  2 * Real.pi * (u : ℝ)

/-- The real components `cos θ_i` of a phase vector stored as fractions of
the full circle. -/
noncomputable def state_real (phases : List ℚ) : List ℝ :=
  phases.map (fun u => Real.cos (phase_theta u))

/-- The imaginary components `sin θ_i` of a phase vector stored as fractions
of the full circle. -/
noncomputable def state_imag (phases : List ℚ) : List ℝ :=
  phases.map (fun u => Real.sin (phase_theta u))

/-- The real-part buffer `random_state_real` of `model.h`, recovered from the
stored phase fractions. -/
noncomputable def Model.random_state_real (m : Model) : List ℝ :=
  state_real m.random_state_phase

/-- The imaginary-part buffer `random_state_imag` of `model.h`, recovered
from the stored phase fractions. -/
noncomputable def Model.random_state_imag (m : Model) : List ℝ :=
  state_imag m.random_state_phase

/-- Modelled from the spec (sections 2, 4 and 7): the missing constructor
`Model::Model(input_dir)` runs the builders in dependency order — parameter
validation, connectivity, electronic structure, energy grid, time grid,
generator seeding — and any failed validation aborts construction with the
corresponding error, so no partially initialized `Model` is produced.
`number_of_pairs` is the flattened bond-table capacity `N * max_neighbor`;
`requires_time` is `calculate_vac OR calculate_msd` and gates the time grid;
the `volume` normalization constant (an open policy point per section 9) is
modelled as the box measure of the raw geometry.  `builtModel` is the fully
assembled record once every validation has passed; `constructModel` is the
validating constructor around it. -/
def builtModel (inp : RawInput) : Model :=
  { calculate_vac := inp.calculate_vac
    calculate_msd := inp.calculate_msd
    number_of_random_vectors := inp.number_of_random_vectors
    number_of_atoms := inp.number_of_atoms
    max_neighbor := inp.max_neighbor
    number_of_pairs := inp.number_of_atoms * inp.max_neighbor
    number_of_energy_points := inp.number_of_energy_points
    number_of_moments := 1000
    number_of_steps_correlation := inp.number_of_steps_correlation
    input_dir := ""
    energy_max := inp.energy_max
    energy := energy_grid inp.energy_max inp.number_of_energy_points.toNat
    time_step :=
      if inp.calculate_vac || inp.calculate_msd then
        time_grid inp.number_of_steps_correlation.toNat
      else []
    neighbor_number := inp.adjacency.map (fun row => (row.length : Int))
    neighbor_list := build_flat inp.max_neighbor.toNat 0 inp.adjacency
    xx := build_flat inp.max_neighbor.toNat 0 inp.xx_raw
    potential := inp.potential_raw
    hopping_real := build_flat inp.max_neighbor.toNat 0 inp.hopping_real_raw
    hopping_imag := build_flat inp.max_neighbor.toNat 0 inp.hopping_imag_raw
    volume := inp.box_raw
    random_state_phase := []
    x := inp.x_raw
    box := inp.box_raw
    requires_time := inp.calculate_vac || inp.calculate_msd
    generator_seed := inp.seed
    generator_position := 0 }

def constructModel (inp : RawInput) : Except ModelError Model :=
  if parameters_ok inp then
    if adjacency_ok inp then
      if alignment_ok inp then Except.ok (builtModel inp)
      else Except.error ModelError.dataAlignmentError
    else Except.error ModelError.connectivityError
  else Except.error ModelError.configError

/-- The phase fractions drawn for one realization: one fresh draw per atom,
taken from the shared generator at its current sequence position. -/
def drawn_phases (m : Model) : List ℚ :=
  (List.range m.number_of_atoms.toNat).map
    (fun i => phase_unit m.generator_seed (m.generator_position + i))

/-- Modelled from the spec (sections 4.6, 6 and 7): the missing
`Model::initialize_state(random_state)` body checks that the caller-owned
container has length `number_of_atoms` (a mismatch is a
`DataAlignmentError`), then fully overwrites it with one fresh phase per
atom, stores the drawn phases in the model-owned random-state buffers, and
advances the generator position by the number of draws. -/
def initialize_state (m : Model) (stateSize : Nat) :
    Except ModelError (Model × List ℚ) :=
  if (stateSize : Int) = m.number_of_atoms then
    Except.ok
      ({ m with
          random_state_phase := drawn_phases m
          generator_position := m.generator_position + m.number_of_atoms.toNat },
        drawn_phases m)
  else Except.error ModelError.dataAlignmentError

/-- The sequence of state vectors produced by `count` successive
`initialize_state` calls driven over the model, each call fed a container of
the correct length. -/
def state_sequence (m : Model) : Nat → List (List ℚ)
  | 0 => []
  | count + 1 =>
    match initialize_state m m.number_of_atoms.toNat with
    | Except.ok (m', out) => out :: state_sequence m' count
    | Except.error _ => []

/-- The four-atom ring input of the spec's scenario (section 8): atoms
`0-1-2-3-0`, two neighbors each, unit real hopping, VAC requested with three
correlation steps, the five-point energy grid on `[-10, 10]`. -/
def sampleInput : RawInput :=
  { calculate_vac := true
    calculate_msd := false
    number_of_random_vectors := 1
    number_of_atoms := 4
    max_neighbor := 2
    number_of_energy_points := 5
    number_of_moments := 1000
    number_of_steps_correlation := 3
    energy_max := 10
    seed := 42
    adjacency := [[1, 3], [0, 2], [1, 3], [0, 2]]
    hopping_real_raw := [[1, 1], [1, 1], [1, 1], [1, 1]]
    hopping_imag_raw := [[0, 0], [0, 0], [0, 0], [0, 0]]
    xx_raw := [[1, -1], [1, -1], [1, -1], [1, -1]]
    potential_raw := [0, 0, 0, 0]
    x_raw := [0, 1, 2, 3]
    box_raw := 4 }

/-- The misconfigured variant of the sample ring input used by the
error-handling scenario of the spec (section 8): VAC requested with a zero
correlation step count. -/
def sampleBadInput : RawInput :=
  { sampleInput with number_of_steps_correlation := 0 }

/-- The model the constructor builds from the sample ring input. -/
def sampleModel : Model :=
  builtModel sampleInput

/-- The sample model after one `initialize_state` call: phases drawn for the
four atoms and the generator advanced by four positions. -/
def sampleModelAfter : Model :=
  { sampleModel with
      random_state_phase := drawn_phases sampleModel
      generator_position :=
        sampleModel.generator_position + sampleModel.number_of_atoms.toNat }

/-- A fresh `Model` record with every field at its declared default. -/
def defaultModel : Model :=
  {}

/-! ## Helper lemmas -/

theorem pad_row_length {α : Type} {maxn : Nat} {z : α} {row : List α}
    (h : row.length ≤ maxn) : (pad_row maxn z row).length = maxn := by
  simp only [pad_row, List.length_append, List.length_replicate]
  omega

theorem pad_row_getElem_left {α : Type} {maxn : Nat} {z : α} {row : List α}
    {t : Nat} (h : t < row.length) : (pad_row maxn z row)[t]? = row[t]? := by
  simp only [pad_row]
  exact List.getElem?_append_left h

theorem flatten_fixed_stride {α : Type} {s : Nat} (rows : List (List α))
    (hlen : ∀ r ∈ rows, r.length = s) (i t : Nat) (ht : t < s) :
    rows.flatten[i * s + t]? = rows[i]?.bind (fun r => r[t]?) := by
  induction rows generalizing i with
  | nil => simp
  | cons r rest ih =>
    have hr : r.length = s := hlen r (List.mem_cons_self r rest)
    cases i with
    | zero =>
      simp only [Nat.zero_mul, Nat.zero_add, List.flatten_cons]
      rw [List.getElem?_append_left (by omega)]
      simp
    | succ i =>
      simp only [List.flatten_cons]
      have harith : (i + 1) * s + t = r.length + (i * s + t) := by
        rw [hr]; ring
      rw [harith, List.getElem?_append_right (Nat.le_add_right _ _),
        Nat.add_sub_cancel_left,
        ih (fun q hq => hlen q (List.mem_cons_of_mem r hq)) i]
      simp

theorem generator_output_lt (seed position : Nat) :
    generator_output seed position < 2 ^ 32 :=
  Nat.mod_lt _ (by norm_num)

theorem phase_unit_nonneg (seed position : Nat) :
    0 ≤ phase_unit seed position := by
  unfold phase_unit
  positivity

theorem phase_unit_lt_one (seed position : Nat) :
    phase_unit seed position < 1 := by
  unfold phase_unit
  rw [div_lt_one (by norm_num)]
  exact_mod_cast generator_output_lt seed position

theorem phase_theta_nonneg {u : ℚ} (h : 0 ≤ u) : 0 ≤ phase_theta u := by
  unfold phase_theta
  have hu : (0 : ℝ) ≤ (u : ℝ) := by exact_mod_cast h
  exact mul_nonneg (by positivity) hu

theorem phase_theta_lt_two_pi {u : ℚ} (h : u < 1) :
    phase_theta u < 2 * Real.pi := by
  unfold phase_theta
  have hu : (u : ℝ) < 1 := by exact_mod_cast h
  have hpi := Real.pi_pos
  nlinarith

theorem constructModel_ok {inp : RawInput} {m : Model}
    (h : constructModel inp = Except.ok m) :
    parameters_ok inp ∧ adjacency_ok inp ∧ alignment_ok inp ∧
    m = builtModel inp := by
  unfold constructModel at h
  split at h
  · rename_i hp
    split at h
    · rename_i ha
      split at h
      · rename_i hal
        simp only [Except.ok.injEq] at h
        exact ⟨hp, ha, hal, h.symm⟩
      · exact Except.noConfusion h
    · exact Except.noConfusion h
  · exact Except.noConfusion h

theorem initialize_state_ok {m : Model} {s : Nat} {m' : Model} {out : List ℚ}
    (h : initialize_state m s = Except.ok (m', out)) :
    (s : Int) = m.number_of_atoms ∧
    m' = { m with
            random_state_phase := drawn_phases m
            generator_position := m.generator_position + m.number_of_atoms.toNat } ∧
    out = drawn_phases m := by
  unfold initialize_state at h
  split at h
  · rename_i hs
    simp only [Except.ok.injEq, Prod.mk.injEq] at h
    exact ⟨hs, h.1.symm, h.2.symm⟩
  · exact Except.noConfusion h

theorem constructModel_sampleInput :
    constructModel sampleInput = Except.ok sampleModel := by
  unfold constructModel
  rw [if_pos (by decide : parameters_ok sampleInput),
    if_pos (by decide : adjacency_ok sampleInput),
    if_pos (by decide : alignment_ok sampleInput)]
  rfl

theorem initialize_state_sampleModel :
    initialize_state sampleModel 4 =
      Except.ok (sampleModelAfter, drawn_phases sampleModel) := by
  unfold initialize_state
  rw [if_pos (by decide : ((4 : Nat) : Int) = sampleModel.number_of_atoms)]
  rfl

/-! ## Claims -/

/-- Claim C10: before the parameter loader overrides them from the input
source, a fresh `Model` holds the in-class default values declared in
`model.h`: `calculate_vac = false`, `calculate_msd = false`,
`number_of_random_vectors = 1`, `number_of_atoms = 0`, `max_neighbor = 0`,
`number_of_pairs = 0`, `number_of_energy_points = 0`,
`number_of_moments = 1000`, `number_of_steps_correlation = 0`,
`energy_max = 10` and `requires_time = false`; an omitted scalar keeps its
default rather than being undefined. -/
theorem defaultModel_fields :
    defaultModel.calculate_vac = false ∧
    defaultModel.calculate_msd = false ∧
    defaultModel.number_of_random_vectors = 1 ∧
    defaultModel.number_of_atoms = 0 ∧
    defaultModel.max_neighbor = 0 ∧
    defaultModel.number_of_pairs = 0 ∧
    defaultModel.number_of_energy_points = 0 ∧
    defaultModel.number_of_moments = 1000 ∧
    defaultModel.number_of_steps_correlation = 0 ∧
    defaultModel.energy_max = 10 ∧
    defaultModel.requires_time = false :=
  ⟨rfl, rfl, rfl, rfl, rfl, rfl, rfl, rfl, rfl, rfl, rfl⟩

/-- Claim C5: requesting VAC or MSD while `number_of_steps_correlation` is
zero makes construction fail with a `ConfigError` instead of producing a
model. -/
theorem construct_zero_correlation_config_error (inp : RawInput)
    (hflag : inp.calculate_vac = true ∨ inp.calculate_msd = true)
    (hzero : inp.number_of_steps_correlation = 0) :
    constructModel inp = Except.error ModelError.configError := by
  have hnp : ¬ parameters_ok inp := fun hp => hp.2.2.2.2.2.2.2 hflag hzero
  unfold constructModel
  rw [if_neg hnp]

/-- Witness for C5: the spec's misconfiguration scenario, VAC requested with
a zero correlation step count. -/
theorem construct_zero_correlation_config_error_witness :
    (sampleBadInput.calculate_vac = true ∨ sampleBadInput.calculate_msd = true) ∧
    sampleBadInput.number_of_steps_correlation = 0 ∧
    constructModel sampleBadInput = Except.error ModelError.configError :=
  ⟨Or.inl rfl, rfl,
    construct_zero_correlation_config_error sampleBadInput (Or.inl rfl) rfl⟩

/-- Claim C8: `initialize_state` does not fail when the supplied container
length agrees with `number_of_atoms`, and a length mismatch fails with a
`DataAlignmentError` rather than going undetected. -/
theorem initialize_state_size_contract (m : Model) (s : Nat) :
    ((s : Int) = m.number_of_atoms →
      initialize_state m s =
        Except.ok
          ({ m with
              random_state_phase := drawn_phases m
              generator_position :=
                m.generator_position + m.number_of_atoms.toNat },
            drawn_phases m)) ∧
    ((s : Int) ≠ m.number_of_atoms →
      initialize_state m s = Except.error ModelError.dataAlignmentError) := by
  constructor
  · intro h
    unfold initialize_state
    rw [if_pos h]
  · intro h
    unfold initialize_state
    rw [if_neg h]

/-- Witness for C8: the four-atom sample model accepts a container of length
four and rejects one of length five. -/
theorem initialize_state_size_contract_witness :
    initialize_state sampleModel 4 =
      Except.ok (sampleModelAfter, drawn_phases sampleModel) ∧
    initialize_state sampleModel 5 =
      Except.error ModelError.dataAlignmentError :=
  ⟨(initialize_state_size_contract sampleModel 4).1 (by decide),
    (initialize_state_size_contract sampleModel 5).2 (by decide)⟩

/-- Claim C6: an `initialize_state` call mutates only the model's
random-state buffers and the generator's sequence position (besides the
caller-supplied output); connectivity, electronic, energy, time and all
scalar fields are unchanged. -/
theorem initialize_state_frame (m : Model) (s : Nat) (m' : Model)
    (out : List ℚ) (h : initialize_state m s = Except.ok (m', out)) :
    m'.neighbor_number = m.neighbor_number ∧
    m'.neighbor_list = m.neighbor_list ∧
    m'.hopping_real = m.hopping_real ∧
    m'.hopping_imag = m.hopping_imag ∧
    m'.potential = m.potential ∧
    m'.xx = m.xx ∧
    m'.energy = m.energy ∧
    m'.time_step = m.time_step ∧
    m'.calculate_vac = m.calculate_vac ∧
    m'.calculate_msd = m.calculate_msd ∧
    m'.number_of_random_vectors = m.number_of_random_vectors ∧
    m'.number_of_atoms = m.number_of_atoms ∧
    m'.max_neighbor = m.max_neighbor ∧
    m'.number_of_pairs = m.number_of_pairs ∧
    m'.number_of_energy_points = m.number_of_energy_points ∧
    m'.number_of_moments = m.number_of_moments ∧
    m'.number_of_steps_correlation = m.number_of_steps_correlation ∧
    m'.energy_max = m.energy_max ∧
    m'.volume = m.volume ∧
    m'.x = m.x ∧
    m'.box = m.box ∧
    m'.requires_time = m.requires_time ∧
    m'.generator_seed = m.generator_seed ∧
    m'.random_state_phase = drawn_phases m ∧
    m'.generator_position = m.generator_position + m.number_of_atoms.toNat ∧
    out = drawn_phases m := by
  obtain ⟨hs, hm, hout⟩ := initialize_state_ok h
  subst hm
  subst hout
  exact ⟨rfl, rfl, rfl, rfl, rfl, rfl, rfl, rfl, rfl, rfl, rfl, rfl, rfl,
    rfl, rfl, rfl, rfl, rfl, rfl, rfl, rfl, rfl, rfl, rfl, rfl, rfl⟩

/-- Witness for C6: the frame condition at the sample model's first
realization. -/
theorem initialize_state_frame_witness :
    initialize_state sampleModel 4 =
      Except.ok (sampleModelAfter, drawn_phases sampleModel) ∧
    sampleModelAfter.neighbor_number = sampleModel.neighbor_number :=
  ⟨initialize_state_sampleModel,
    (initialize_state_frame sampleModel 4 sampleModelAfter
      (drawn_phases sampleModel) initialize_state_sampleModel).1⟩

/-- Claim C9: construction and random-vector generation are deterministic in
the input: two models constructed from identical input data have identical
neighbor, hopping, potential, energy and time arrays, and produce identical
sequences of state vectors over successive `initialize_state` calls. -/
theorem construction_deterministic (inp inp₂ : RawInput) (m m₂ : Model)
    (k : Nat) (hin : inp = inp₂)
    (h : constructModel inp = Except.ok m)
    (h₂ : constructModel inp₂ = Except.ok m₂) :
    m.neighbor_number = m₂.neighbor_number ∧
    m.neighbor_list = m₂.neighbor_list ∧
    m.hopping_real = m₂.hopping_real ∧
    m.hopping_imag = m₂.hopping_imag ∧
    m.potential = m₂.potential ∧
    m.energy = m₂.energy ∧
    m.time_step = m₂.time_step ∧
    state_sequence m k = state_sequence m₂ k := by
  subst hin
  rw [h] at h₂
  simp only [Except.ok.injEq] at h₂
  subst h₂
  exact ⟨rfl, rfl, rfl, rfl, rfl, rfl, rfl, rfl⟩

/-- Witness for C9: the sample input constructed twice gives the same model
and the same two-realization state sequence. -/
theorem construction_deterministic_witness :
    constructModel sampleInput = Except.ok sampleModel ∧
    state_sequence sampleModel 2 = state_sequence sampleModel 2 :=
  ⟨constructModel_sampleInput,
    (construction_deterministic sampleInput sampleInput sampleModel
      sampleModel 2 rfl constructModel_sampleInput
      constructModel_sampleInput).2.2.2.2.2.2.2⟩

/-- Claim C7: every complex component of a state vector produced by
`initialize_state` has unit modulus: at each atom the real and imaginary
parts satisfy `r^2 + im^2 = 1` (exactly, in the real-number model of the
floating-point computation). -/
theorem initialize_state_unit_modulus (m : Model) (s : Nat) (m' : Model)
    (out : List ℚ) (h : initialize_state m s = Except.ok (m', out))
    (i : Nat) (r im : ℝ)
    (hr : (state_real out)[i]? = some r)
    (him : (state_imag out)[i]? = some im) :
    r ^ 2 + im ^ 2 = 1 := by
  simp only [state_real, List.getElem?_map] at hr
  simp only [state_imag, List.getElem?_map] at him
  cases hu : out[i]? with
  | none =>
    rw [hu] at hr
    simp at hr
  | some u =>
    rw [hu] at hr him
    simp only [Option.map_some', Option.some.injEq] at hr him
    rw [← hr, ← him]
    exact Real.cos_sq_add_sin_sq (phase_theta u)

/-- Witness for C7: the first component of the sample model's first state
vector has unit modulus. -/
theorem initialize_state_unit_modulus_witness :
    Real.cos (phase_theta (phase_unit 42 0)) ^ 2 +
      Real.sin (phase_theta (phase_unit 42 0)) ^ 2 = 1 := by
  have h0 : (drawn_phases sampleModel)[0]? = some (phase_unit 42 0) := rfl
  refine initialize_state_unit_modulus sampleModel 4 sampleModelAfter
    (drawn_phases sampleModel) initialize_state_sampleModel 0
    (Real.cos (phase_theta (phase_unit 42 0)))
    (Real.sin (phase_theta (phase_unit 42 0))) ?_ ?_
  · simp only [state_real, List.getElem?_map, h0, Option.map_some']
  · simp only [state_imag, List.getElem?_map, h0, Option.map_some']

/-- Claim C1: with a correctly sized container, `initialize_state` fully
overwrites it: it returns the complete list of `number_of_atoms` drawn
phases, one per atom from the shared deterministic generator at consecutive
sequence positions, each angle `θ_i` lying in `[0, 2π)`, and the vector's
real and imaginary components at atom `i` are `cos θ_i` and `sin θ_i`. -/
theorem initialize_state_overwrites (m : Model) (s : Nat)
    (h : (s : Int) = m.number_of_atoms) :
    ∃ m', initialize_state m s = Except.ok (m', drawn_phases m) ∧
      (drawn_phases m).length = s ∧
      ∀ i, i < s →
        (drawn_phases m)[i]? =
          some (phase_unit m.generator_seed (m.generator_position + i)) ∧
        0 ≤ phase_theta (phase_unit m.generator_seed (m.generator_position + i)) ∧
        phase_theta (phase_unit m.generator_seed (m.generator_position + i)) <
          2 * Real.pi ∧
        (state_real (drawn_phases m))[i]? =
          some (Real.cos (phase_theta
            (phase_unit m.generator_seed (m.generator_position + i)))) ∧
        (state_imag (drawn_phases m))[i]? =
          some (Real.sin (phase_theta
            (phase_unit m.generator_seed (m.generator_position + i)))) := by
  have hs : m.number_of_atoms.toNat = s := by omega
  refine ⟨{ m with
      random_state_phase := drawn_phases m
      generator_position := m.generator_position + m.number_of_atoms.toNat },
    ?_, ?_, ?_⟩
  · unfold initialize_state
    rw [if_pos h]
  · simp [drawn_phases, hs]
  · intro i hi
    have hidx : (drawn_phases m)[i]? =
        some (phase_unit m.generator_seed (m.generator_position + i)) := by
      unfold drawn_phases
      rw [List.getElem?_map, List.getElem?_range (by omega)]
      rfl
    refine ⟨hidx, phase_theta_nonneg (phase_unit_nonneg _ _),
      phase_theta_lt_two_pi (phase_unit_lt_one _ _), ?_, ?_⟩
    · unfold state_real
      rw [List.getElem?_map, hidx]
      rfl
    · unfold state_imag
      rw [List.getElem?_map, hidx]
      rfl

/-- Witness for C1: the sample model accepts its length-four container and
returns the full drawn phase vector. -/
theorem initialize_state_overwrites_witness :
    ((4 : Nat) : Int) = sampleModel.number_of_atoms ∧
    ∃ m', initialize_state sampleModel 4 =
        Except.ok (m', drawn_phases sampleModel) :=
  ⟨by decide,
    (initialize_state_overwrites sampleModel 4 (by decide)).elim
      (fun m' hm' => ⟨m', hm'.1⟩)⟩

theorem energy_grid_length (emax : ℚ) (n : Nat) :
    (energy_grid emax n).length = n := by
  unfold energy_grid
  split <;> simp

theorem energy_grid_sorted {emax : ℚ} (hpos : 0 < emax) (n : Nat) :
    List.Pairwise (· < ·) (energy_grid emax n) := by
  unfold energy_grid
  split
  · rename_i hn
    interval_cases n <;> simp
  · rename_i hn
    have h2n : 2 ≤ n := by omega
    have hd : (0 : ℚ) < (n : ℚ) - 1 := by
      have h2 : (2 : ℚ) ≤ (n : ℚ) := by exact_mod_cast h2n
      linarith
    refine List.Pairwise.map _ ?_ (List.pairwise_lt_range n)
    intro a b hab
    have hab' : (a : ℚ) < (b : ℚ) := by exact_mod_cast hab
    have key : 2 * emax * (a : ℚ) / ((n : ℚ) - 1) <
        2 * emax * (b : ℚ) / ((n : ℚ) - 1) := by
      rw [div_lt_div_iff_of_pos_right hd]
      nlinarith
    linarith

theorem energy_grid_bounds {emax : ℚ} (hpos : 0 < emax) (n : Nat) :
    ∀ e ∈ energy_grid emax n, -emax ≤ e ∧ e ≤ emax := by
  unfold energy_grid
  split
  · intro e he
    rw [List.eq_of_mem_replicate he]
    constructor <;> linarith
  · rename_i hn
    intro e he
    rw [List.mem_map] at he
    obtain ⟨k, hk, rfl⟩ := he
    rw [List.mem_range] at hk
    have h2n : 2 ≤ n := by omega
    have hd : (0 : ℚ) < (n : ℚ) - 1 := by
      have h2 : (2 : ℚ) ≤ (n : ℚ) := by exact_mod_cast h2n
      linarith
    have hk1 : (k : ℚ) + 1 ≤ (n : ℚ) := by exact_mod_cast hk
    have hfrac0 : 0 ≤ (k : ℚ) / ((n : ℚ) - 1) := by positivity
    have hfrac1 : (k : ℚ) / ((n : ℚ) - 1) ≤ 1 := by
      rw [div_le_one hd]
      linarith
    have e1 : 2 * emax * (k : ℚ) / ((n : ℚ) - 1) =
        2 * emax * ((k : ℚ) / ((n : ℚ) - 1)) := by ring
    rw [e1]
    constructor
    · have hnn := mul_nonneg (show (0 : ℚ) ≤ 2 * emax by linarith) hfrac0
      linarith
    · have hub := mul_le_of_le_one_right
        (show (0 : ℚ) ≤ 2 * emax by linarith) hfrac1
      linarith

theorem energy_grid_scenario : energy_grid 10 5 = [-10, -5, 0, 5, 10] := by
  unfold energy_grid
  norm_num [List.range_succ]

theorem time_grid_length (n : Nat) : (time_grid n).length = n := by
  simp [time_grid]

theorem time_grid_sorted (n : Nat) : List.Pairwise (· < ·) (time_grid n) := by
  unfold time_grid
  refine List.Pairwise.map _ ?_ (List.pairwise_lt_range n)
  intro a b hab
  exact_mod_cast hab

theorem time_grid_nonneg (n : Nat) : ∀ e ∈ time_grid n, 0 ≤ e := by
  unfold time_grid
  intro e he
  rw [List.mem_map] at he
  obtain ⟨k, _, rfl⟩ := he
  exact Nat.cast_nonneg k

/-- Claim C3: after successful construction the energy grid has exactly
`number_of_energy_points` entries, is sorted strictly ascending, and every
entry lies in `[-energy_max, energy_max]`; in the scenario `energy_max = 10`
with five points the grid contains both endpoints `-10` and `10`. -/
theorem construct_energy_grid (inp : RawInput) (m : Model)
    (h : constructModel inp = Except.ok m) :
    m.energy.length = m.number_of_energy_points.toNat ∧
    List.Pairwise (· < ·) m.energy ∧
    (∀ e ∈ m.energy, -m.energy_max ≤ e ∧ e ≤ m.energy_max) ∧
    (inp.energy_max = 10 → inp.number_of_energy_points = 5 →
      ((-10 : ℚ) ∈ m.energy ∧ (10 : ℚ) ∈ m.energy)) := by
  obtain ⟨hp, ha, hal, rfl⟩ := constructModel_ok h
  have hemax : 0 < inp.energy_max := hp.2.2.2.2.1
  refine ⟨?_, ?_, ?_, ?_⟩
  · simp only [builtModel]
    exact energy_grid_length _ _
  · simp only [builtModel]
    exact energy_grid_sorted hemax _
  · simp only [builtModel]
    exact energy_grid_bounds hemax _
  · intro h10 h5
    simp only [builtModel, h10, h5]
    rw [show ((5 : Int).toNat) = 5 from rfl, energy_grid_scenario]
    constructor <;> simp

/-- Witness for C3: the sample input has `energy_max = 10` and five energy
points; its constructed grid contains both endpoints. -/
theorem construct_energy_grid_witness :
    constructModel sampleInput = Except.ok sampleModel ∧
    ((-10 : ℚ) ∈ sampleModel.energy ∧ (10 : ℚ) ∈ sampleModel.energy) :=
  ⟨constructModel_sampleInput,
    (construct_energy_grid sampleInput sampleModel
      constructModel_sampleInput).2.2.2 rfl rfl⟩

/-- Claim C4: after successful construction, if neither VAC nor MSD is
requested the time array is empty; otherwise it has exactly
`number_of_steps_correlation` entries, all non-negative and strictly
increasing. -/
theorem construct_time_step (inp : RawInput) (m : Model)
    (h : constructModel inp = Except.ok m) :
    (m.calculate_vac = false ∧ m.calculate_msd = false → m.time_step = []) ∧
    (m.calculate_vac = true ∨ m.calculate_msd = true →
      m.time_step.length = m.number_of_steps_correlation.toNat ∧
      List.Pairwise (· < ·) m.time_step ∧
      ∀ e ∈ m.time_step, 0 ≤ e) := by
  obtain ⟨hp, ha, hal, rfl⟩ := constructModel_ok h
  constructor
  · rintro ⟨hv, hm⟩
    simp only [builtModel] at hv hm ⊢
    rw [hv, hm]
    rfl
  · intro hflag
    simp only [builtModel] at hflag ⊢
    have hb : (inp.calculate_vac || inp.calculate_msd) = true := by
      rcases hflag with h1 | h1 <;> simp [h1]
    simp only [hb, if_true]
    exact ⟨time_grid_length _, time_grid_sorted _, time_grid_nonneg _⟩

/-- Witness for C4: the sample input requests VAC with three correlation
steps and gets a three-entry time grid. -/
theorem construct_time_step_witness :
    constructModel sampleInput = Except.ok sampleModel ∧
    sampleModel.time_step.length = 3 :=
  ⟨constructModel_sampleInput,
    ((construct_time_step sampleInput sampleModel
      constructModel_sampleInput).2 (Or.inl rfl)).1.trans rfl⟩

/-- Claim C2: after successful construction, `number_of_pairs` equals
`number_of_atoms * max_neighbor`, each per-atom neighbor count lies in
`[0, max_neighbor]`, and every neighbor index stored in the first
`neighbor_number[i]` slots of atom `i`'s fixed stride of `neighbor_list`
lies in `[0, number_of_atoms)`. -/
theorem construct_neighbor_invariants (inp : RawInput) (m : Model)
    (h : constructModel inp = Except.ok m) :
    m.number_of_pairs = m.number_of_atoms * m.max_neighbor ∧
    m.neighbor_number.length = m.number_of_atoms.toNat ∧
    (∀ (i : Nat) (c : Int),
      m.neighbor_number[i]? = some c → 0 ≤ c ∧ c ≤ m.max_neighbor) ∧
    (∀ (i t : Nat) (c : Int), m.neighbor_number[i]? = some c → (t : Int) < c →
      ∀ (j : Int), m.neighbor_list[i * m.max_neighbor.toNat + t]? = some j →
        0 ≤ j ∧ j < m.number_of_atoms) := by
  obtain ⟨hp, ha, hal, rfl⟩ := constructModel_ok h
  obtain ⟨hlen, hrows⟩ := ha
  refine ⟨rfl, ?_, ?_, ?_⟩
  · simp only [builtModel, List.length_map]
    exact hlen
  · intro i c hc
    simp only [builtModel, List.getElem?_map] at hc
    cases hrow : inp.adjacency[i]? with
    | none =>
      rw [hrow] at hc
      simp at hc
    | some row =>
      rw [hrow] at hc
      simp only [Option.map_some', Option.some.injEq] at hc
      have hmem : row ∈ inp.adjacency := List.getElem?_mem hrow
      have hrowlen : (row.length : Int) ≤ inp.max_neighbor := (hrows row hmem).1
      constructor
      · omega
      · simp only [builtModel]
        omega
  · intro i t c hc htc j hj
    simp only [builtModel, List.getElem?_map] at hc
    cases hrow : inp.adjacency[i]? with
    | none =>
      rw [hrow] at hc
      simp at hc
    | some row =>
      rw [hrow] at hc
      simp only [Option.map_some', Option.some.injEq] at hc
      have hmem : row ∈ inp.adjacency := List.getElem?_mem hrow
      have hrowlen : (row.length : Int) ≤ inp.max_neighbor := (hrows row hmem).1
      have hmaxnn : 0 ≤ inp.max_neighbor := hp.2.1
      have ht : t < row.length := by omega
      have hall : ∀ r ∈ inp.adjacency.map (pad_row inp.max_neighbor.toNat (0 : Int)),
          r.length = inp.max_neighbor.toNat := by
        intro r hr
        rw [List.mem_map] at hr
        obtain ⟨q, hq, rfl⟩ := hr
        have hqlen : (q.length : Int) ≤ inp.max_neighbor := (hrows q hq).1
        exact pad_row_length (by omega)
      have hstride : (build_flat inp.max_neighbor.toNat 0
            inp.adjacency)[i * inp.max_neighbor.toNat + t]? =
          (inp.adjacency.map
            (pad_row inp.max_neighbor.toNat 0))[i]?.bind (fun r => r[t]?) := by
        unfold build_flat
        exact flatten_fixed_stride _ hall i t (by omega)
      simp only [builtModel] at hj
      rw [hstride, List.getElem?_map, hrow] at hj
      simp only [Option.map_some', Option.some_bind] at hj
      rw [pad_row_getElem_left ht] at hj
      have hjmem : j ∈ row := List.getElem?_mem hj
      simp only [builtModel]
      exact (hrows row hmem).2 j hjmem

/-- Witness for C2: the constructed sample model satisfies the bond-table
capacity identity. -/
theorem construct_neighbor_invariants_witness :
    constructModel sampleInput = Except.ok sampleModel ∧
    sampleModel.number_of_pairs =
      sampleModel.number_of_atoms * sampleModel.max_neighbor :=
  ⟨constructModel_sampleInput,
    (construct_neighbor_invariants sampleInput sampleModel
      constructModel_sampleInput).1⟩
